import Mathlib

/-!
Verification development for the SafeGaze YouTube ads blocker.

The repository ships two revisions of one content script:
the current `youtube-ads-blocker.js` ("main") and the v1.4.0 revision
(`src/unnamed/part_000`, "v140").  Both share Layer 1 (the payload
sanitizer `removeAdData`/`cleanObject` and the fetch/XHR hooks) verbatim;
they differ in the Layer 3 ad-presence state machine
(`handleAdDetection`, `isDefinitelyInAd`, `trySkipAd`).

This file gives a shallow embedding of those parts:
* decoded JSON payloads as a tree (`JVal`) with the sanitizer as a
  structural traversal, mirroring `cleanObject`;
* an explicit-heap rendering of the same code (`cleanObjectHB`) to state
  the in-place / reference-identity facts, with a fuel parameter playing
  the role of the JS call stack;
* the fetch/XHR response interception as pure functions over a
  `Response` record, with `JSON.parse` abstracted as a parameter;
* the two revisions of the DOM state machine as step functions over
  explicit video/skipper state records, with DOM queries abstracted as
  a `DomSignals` record.
-/

namespace SafeGaze

/-! ## JSON payload model

A decoded structured payload: maps (ordered field lists), sequences and
scalars.  Mirrors what `JSON.parse` can produce. -/

mutual

inductive JVal where
  | null : JVal
  | bool : Bool → JVal
  | num : Int → JVal
  | str : String → JVal
  | obj : JFields → JVal
  | arr : JElems → JVal

inductive JFields where
  | nil : JFields
  | cons : String → JVal → JFields → JFields

inductive JElems where
  | nil : JElems
  | cons : JVal → JElems → JElems

end

/-- The registry of ad signature property names, from `var adProps = [...]`
in `removeAdData` (identical in both revisions). -/
def adProps : List String :=
  ["playerAds", "adPlacements", "adSlots", "ads", "adBreakParams", "companions"]

mutual

/-- Embedding of `cleanObject` from `removeAdData`
(src/youtube-ads-blocker.js lines 104-122).  The source first deletes
every `adProps` key of the node and then iterates `Object.keys` of the
mutated node, recursing into every property whose value is composite;
the two loops fuse into this single recursion (recursing into a scalar
is a no-op in the source, so mapping over every kept value is the same
function).  Note there is no depth parameter anywhere in the source. -/
def cleanVal : JVal → JVal
  | JVal.obj fs => JVal.obj (cleanFields fs)
  | JVal.arr es => JVal.arr (cleanElems es)
  | v => v

def cleanFields : JFields → JFields
  | JFields.nil => JFields.nil
  | JFields.cons k v rest =>
    if adProps.contains k then cleanFields rest
    else JFields.cons k (cleanVal v) (cleanFields rest)

def cleanElems : JElems → JElems
  | JElems.nil => JElems.nil
  | JElems.cons v rest => JElems.cons (cleanVal v) (cleanElems rest)

end

/-- Embedding of `removeAdData` (src/youtube-ads-blocker.js lines 89-126):
`null`/non-object input is returned unchanged, composite input is cleaned
by `cleanObject` and the same value returned. -/
def removeAdData (data : JVal) : JVal :=
  match data with
  | JVal.obj _ => cleanVal data
  | JVal.arr _ => cleanVal data
  | v => v

mutual

/-- Does some node of the payload carry a property named `s`? -/
def hasKey (s : String) : JVal → Bool
  | JVal.obj fs => hasKeyF s fs
  | JVal.arr es => hasKeyE s es
  | _ => false

def hasKeyF (s : String) : JFields → Bool
  | JFields.nil => false
  | JFields.cons k v rest => k == s || hasKey s v || hasKeyF s rest

def hasKeyE (s : String) : JElems → Bool
  | JElems.nil => false
  | JElems.cons v rest => hasKey s v || hasKeyE s rest

end

/-- A payload is clean when no node carries any registry key. -/
def noAdKeys (v : JVal) : Bool :=
  adProps.all fun s => !(hasKey s v)

/-- The field names of a map node, in order. -/
def keysOfF : JFields → List String
  | JFields.nil => []
  | JFields.cons k _ rest => k :: keysOfF rest

/-! ## Explicit-heap rendering of the sanitizer

`removeAdData` mutates its argument in place and returns the very same
reference.  To state that, the same code is rendered once more over an
explicit object heap: object references are addresses, the heap maps an
address to its field list, and `cleanObject` becomes a heap transformer.
The source has no recursion bound, so the embedding takes a fuel
parameter standing for the JS call stack; the second component of the
result records whether the traversal completed within that fuel. -/

inductive HVal where
  | null : HVal
  | undef : HVal
  | bool : Bool → HVal
  | num : Int → HVal
  | str : String → HVal
  | ref : Nat → HVal
deriving DecidableEq, Repr

/-- The object heap: addresses paired with their field lists. -/
abbrev Heap : Type := List (Nat × List (String × HVal))

def lookupH (h : Heap) (a : Nat) : Option (List (String × HVal)) :=
  match h with
  | [] => none
  | p :: rest => if p.1 == a then some p.2 else lookupH rest a

/-- Replace the fields stored at an existing address (deleting properties
never allocates or frees an object). -/
def updateH (h : Heap) (a : Nat) (fs : List (String × HVal)) : Heap :=
  match h with
  | [] => []
  | p :: rest => if p.1 == a then (p.1, fs) :: rest else p :: updateH rest a fs

def heapAddrs (h : Heap) : List Nat :=
  match h with
  | [] => []
  | p :: rest => p.1 :: heapAddrs rest

/-- One step of the source's second loop: skip a scalar-valued property,
recurse (via `recur`, the one-level-deeper `cleanObject`) into a
reference-valued one, threading the heap and the completion flag. -/
def cleanChildStep (recur : Heap → Nat → Heap × Bool) (acc : Heap × Bool)
    (p : String × HVal) : Heap × Bool :=
  match p.2 with
  | HVal.ref b =>
    let r := recur acc.1 b
    (r.1, acc.2 && r.2)
  | _ => acc

/-- Heap rendering of `cleanObject` at an object reference: delete the
registry keys of the object, then walk the (post-deletion) key snapshot
recursing into each reference-valued property, exactly as the source's
two loops do.  Returns the new heap and whether the walk completed
within `fuel` nested calls. -/
def cleanObjectHB : Nat → Heap → Nat → Heap × Bool
  | 0, h, _ => (h, false)
  | f + 1, h, a =>
    match lookupH h a with
    | none => (h, true)
    | some fields =>
      let kept := fields.filter fun p => !(adProps.contains p.1)
      kept.foldl (cleanChildStep (cleanObjectHB f)) (updateH h a kept, true)

/-- Heap rendering of `removeAdData`: a non-reference (null, undefined or
scalar) is returned as is with the heap untouched; a reference has its
object cleaned in place and the same reference is returned. -/
def removeAdDataH (fuel : Nat) (h : Heap) (v : HVal) : Heap × HVal :=
  match v with
  | HVal.ref a => ((cleanObjectHB fuel h a).1, HVal.ref a)
  | v => (h, v)

/-- Is the value an object reference (JS: truthy with typeof object)? -/
def isRefH : HVal → Bool
  | HVal.ref _ => true
  | _ => false

/-- What the `ytInitialPlayerResponse` setter stores: the value returned
by `removeAdData(value)` (src/youtube-ads-blocker.js lines 132-141). -/
def ytSetterStores (fuel : Nat) (h : Heap) (value : HVal) : HVal :=
  (removeAdDataH fuel h value).2

/-- A one-object heap whose object refers to itself. -/
def cyclicHeap : Heap := [(0, [("self", HVal.ref 0)])]

/-! ## Network hook layer

The fetch hook's response continuation and the XHR `readystatechange`
listener, as pure functions.  `JSON.parse` is a host builtin and is
abstracted as a `parse` parameter; `JSON.stringify` is given a direct
model below (no claim depends on its exact output).  `indexOf(...) !== -1`
is substring containment, rendered over character lists. -/

def isPrefixList : List Char → List Char → Bool
  | [], _ => true
  | _ :: _, [] => false
  | a :: as, b :: bs => a == b && isPrefixList as bs

def hasSubList (pat : List Char) : List Char → Bool
  | [] => pat.isEmpty
  | c :: rest => isPrefixList pat (c :: rest) || hasSubList pat rest

/-- JS `s.indexOf(pat) !== -1`. -/
def jsIncludes (s pat : String) : Bool :=
  hasSubList pat.toList s.toList

def playerMarker : String := "/youtubei/v1/player"

def nextMarker : String := "/next"

def cdnMarker : String := "googlevideo.com"

def jsonMarker : String := "application/json"

def contentTypeName : String := "content-type"

def contentLengthName : String := "content-length"

structure Response where
  status : Nat
  statusText : String
  headers : List (String × String)
  body : String
deriving DecidableEq, Repr

def headerGet (hs : List (String × String)) (k : String) : Option String :=
  match hs with
  | [] => none
  | p :: rest => if p.1 == k then some p.2 else headerGet rest k

def headerSet (hs : List (String × String)) (k v : String) : List (String × String) :=
  match hs with
  | [] => [(k, v)]
  | p :: rest => if p.1 == k then (p.1, v) :: rest else p :: headerSet rest k v

mutual

/-- Model of `JSON.stringify` on the payload tree. -/
def stringifyVal : JVal → String
  | JVal.null => "null"
  | JVal.bool true => "true"
  | JVal.bool false => "false"
  | JVal.num n => toString n
  | JVal.str s => "\"" ++ s ++ "\""
  | JVal.obj fs => "\x7b" ++ stringifyFields fs ++ "\x7d"
  | JVal.arr es => "[" ++ stringifyElems es ++ "]"

def stringifyFields : JFields → String
  | JFields.nil => ""
  | JFields.cons k v JFields.nil => "\"" ++ k ++ "\":" ++ stringifyVal v
  | JFields.cons k v rest => "\"" ++ k ++ "\":" ++ stringifyVal v ++ "," ++ stringifyFields rest

def stringifyElems : JElems → String
  | JElems.nil => ""
  | JElems.cons v JElems.nil => stringifyVal v
  | JElems.cons v rest => stringifyVal v ++ "," ++ stringifyElems rest

end

/-- The fetch hook's response path (src/youtube-ads-blocker.js lines
150-199): skip the video CDN entirely; pass through any response whose
content type is missing or not JSON; intercept only player-API URLs that
do not carry the `/next` marker; on parse failure return the original
response (the surrounding try/catch and promise `.catch` make failure
non-surfacing, so the function is total); on success re-encode the
sanitized tree into a fresh response with the original status and
statusText and the content-length header corrected. -/
def fetchHook (parse : String → Option JVal) (url : String) (resp : Response) : Response :=
  if jsIncludes url cdnMarker then resp
  else
    match headerGet resp.headers contentTypeName with
    | none => resp
    | some ct =>
      if !(jsIncludes ct jsonMarker) then resp
      else if jsIncludes url playerMarker && !(jsIncludes url nextMarker) then
        match parse resp.body with
        | none => resp
        | some data =>
          let modifiedText := stringifyVal (removeAdData data)
          { status := resp.status
            statusText := resp.statusText
            headers := headerSet resp.headers contentLengthName (toString modifiedText.length)
            body := modifiedText }
      else resp

/-- The XHR hook's interception condition (src/youtube-ads-blocker.js
line 221): the `readystatechange` listener that rewrites `responseText`
is attached only when this holds. -/
def xhrIntercepts (url : String) : Bool :=
  jsIncludes url playerMarker && !(jsIncludes url nextMarker)

/-- What the XHR response text is after the hook (lines 215-242): the
listener is only attached on intercepted URLs, skips empty bodies, and
leaves the text unchanged when parsing fails. -/
def xhrResponseBody (parse : String → Option JVal) (url text : String) : String :=
  if !(xhrIntercepts url) then text
  else if text == "" then text
  else
    match parse text with
    | none => text
    | some data => stringifyVal (removeAdData data)

/-! ## Ad-presence state machine

Both revisions poll `handleAdDetection`.  DOM queries are abstracted
into a snapshot of boolean signals; the `<video>` element is a record of
the fields the code reads and writes.  Durations and times are rationals
(the code only compares and assigns them). -/

/-- One DOM snapshot: which elements exist and which classes the player
container carries at this tick. -/
structure DomSignals where
  hasVideo : Bool
  hasMoviePlayer : Bool
  adShowing : Bool
  adInterrupting : Bool
  adOverlay : Bool
  adModule : Bool
  adPreview : Bool
  adText : Bool
  skipButtonVisible : Bool
deriving DecidableEq, Repr

/-- The media element state the scripts read and write.  `duration` is
`none` when the element reports `NaN` or no duration (both falsy in the
source's guards). -/
structure VideoState where
  muted : Bool
  playbackRate : Rat
  currentTime : Rat
  duration : Option Rat
  paused : Bool
deriving DecidableEq, Repr

/-- Mutable fields of the v1.4.0 `YouTubeAdSkipper`
(src/unnamed/part_000 lines 321-328). -/
structure SkipperState where
  lastAdState : Bool
  userWasMuted : Bool
  userPlaybackRate : Rat
  consecutiveAdDetections : Nat
deriving DecidableEq, Repr

/-- Mutable fields of the current `YouTubeAdSkipper`
(src/youtube-ads-blocker.js lines 253-259; it keeps no saved rate and
no confirmation counter). -/
structure MainState where
  lastAdState : Bool
  userWasMuted : Bool
deriving DecidableEq, Repr

/-- `isDefinitelyInAd` (src/unnamed/part_000 lines 397-415): the player
container must carry a structural ad class, and at least one
corroborating ad element must exist. -/
def isDefinitelyInAd (d : DomSignals) : Bool :=
  if !d.hasMoviePlayer then false
  else
    let hasAdClass := d.adShowing || d.adInterrupting
    if !hasAdClass then false
    else
      let hasAdOverlay := d.adOverlay
      let hasAdModule := d.adModule
      let hasAdPreview := d.adPreview
      let hasAdText := d.adText
      hasAdClass && (hasAdOverlay || hasAdModule || hasAdPreview || hasAdText)

/-- The `isNowInAd` expression of the current revision's
`handleAdDetection` (src/youtube-ads-blocker.js lines 468-474): a
disjunction of the structural class signal and each element signal. -/
def isNowInAdMain (d : DomSignals) : Bool :=
  (d.hasMoviePlayer && (d.adShowing || d.adInterrupting)) ||
    d.adOverlay || d.adModule || d.adText

/-- `trySkipAd` (src/unnamed/part_000 lines 490-511): if a visible skip
button exists it is clicked and nothing else happens; otherwise the rate
is raised to 16 and, only for a valid reported duration under 30
seconds, the position is forced to just before the end.  Overlay removal
is a DOM-only effect outside this state. -/
def trySkipAd (d : DomSignals) (v : VideoState) : VideoState :=
  if d.skipButtonVisible then v
  else
    let v1 := if v.playbackRate < 16 then { v with playbackRate := 16 } else v
    match v1.duration with
    | some dur =>
      if dur ≠ 0 ∧ dur < 30 then
        if v1.currentTime < dur - 1/2 then { v1 with currentTime := dur - 1/10 } else v1
      else v1
    | none => v1

/-- `handleAdDetection` of v1.4.0 (src/unnamed/part_000 lines 422-485).
The entering branch returns early until two consecutive positive
samples; the four sequential `if` blocks of the source appear in order,
and `lastAdState` is only updated when the early return is not taken. -/
def handleAdDetectionV140 (st : SkipperState) (v : VideoState) (d : DomSignals) :
    SkipperState × VideoState :=
  if !d.hasVideo || !d.hasMoviePlayer then (st, v)
  else
    let isNowInAd := isDefinitelyInAd d
    let wasInAd := st.lastAdState
    if isNowInAd && !wasInAd && decide (st.consecutiveAdDetections + 1 < 2) then
      ({ st with consecutiveAdDetections := st.consecutiveAdDetections + 1 }, v)
    else
      let s1 :=
        if isNowInAd && !wasInAd then
          let stA := { st with
            consecutiveAdDetections := st.consecutiveAdDetections + 1
            userWasMuted := v.muted
            userPlaybackRate := v.playbackRate }
          (stA, trySkipAd d { v with muted := true })
        else (st, v)
      let s2 :=
        if !isNowInAd && wasInAd then
          ({ s1.1 with consecutiveAdDetections := 0 },
            { s1.2 with muted := s1.1.userWasMuted, playbackRate := s1.1.userPlaybackRate })
        else s1
      let v3 := if isNowInAd && wasInAd then trySkipAd d s2.2 else s2.2
      let st4 := if !isNowInAd then { s2.1 with consecutiveAdDetections := 0 } else s2.1
      ({ st4 with lastAdState := isNowInAd }, v3)

/-- Fold a sequence of DOM snapshots through the v1.4.0 detection step. -/
def runDetectionV140 (steps : List DomSignals) (st : SkipperState) (v : VideoState) :
    SkipperState × VideoState :=
  match steps with
  | [] => (st, v)
  | d :: rest =>
    let r := handleAdDetectionV140 st v d
    runDetectionV140 rest r.1 r.2

/-- `handleAdDetection` of the current revision
(src/youtube-ads-blocker.js lines 461-533).  Entering: save the mute
flag, mute, jump to the end whenever a valid duration is reported, set
rate 16.  Exiting: restore the saved mute flag and reset the rate to 1.
Staying in ad: keep jumping to the end while more than 0.3s remain.
Skip-button clicks and overlay removal are DOM-only effects. -/
def handleAdDetectionMain (st : MainState) (v : VideoState) (d : DomSignals) :
    MainState × VideoState :=
  if !d.hasVideo || !d.hasMoviePlayer then (st, v)
  else
    let isNowInAd := isNowInAdMain d
    let wasInAd := st.lastAdState
    let s1 :=
      if isNowInAd && !wasInAd then
        let stA := { st with userWasMuted := v.muted }
        let vA := { v with muted := true }
        let vB :=
          match vA.duration with
          | some dur => if dur ≠ 0 then { vA with currentTime := dur } else vA
          | none => vA
        (stA, { vB with playbackRate := 16 })
      else (st, v)
    let v2 :=
      if !isNowInAd && wasInAd then
        { s1.2 with muted := s1.1.userWasMuted, playbackRate := 1 }
      else s1.2
    let v3 :=
      if isNowInAd && wasInAd then
        match v2.duration with
        | some dur =>
          if dur ≠ 0 ∧ v2.currentTime < dur - 3/10 then { v2 with currentTime := dur } else v2
        | none => v2
      else v2
    ({ s1.1 with lastAdState := isNowInAd }, v3)

/-! Concrete snapshots and states used by the witnesses and scenario
theorems. -/

/-- A snapshot with player and video present and no ad signal at all. -/
def dNoAd : DomSignals :=
  { hasVideo := true, hasMoviePlayer := true, adShowing := false, adInterrupting := false
    adOverlay := false, adModule := false, adPreview := false, adText := false
    skipButtonVisible := false }

/-- A snapshot with the structural `ad-showing` class and a corroborating
overlay element, no visible skip button. -/
def dAdActive : DomSignals :=
  { dNoAd with adShowing := true, adOverlay := true }

/-- A snapshot with a corroborating overlay element but no structural ad
class on the player container. -/
def dOverlayOnly : DomSignals :=
  { dNoAd with adOverlay := true }

/-- Initial v1.4.0 skipper state (the object literal's initial fields). -/
def st0 : SkipperState :=
  { lastAdState := false, userWasMuted := false, userPlaybackRate := 1
    consecutiveAdDetections := 0 }

/-- Initial current-revision skipper state. -/
def mainSt0 : MainState :=
  { lastAdState := false, userWasMuted := false }

/-- A 20-second unmuted video at 5s, normal rate. -/
def v20 : VideoState :=
  { muted := false, playbackRate := 1, currentTime := 5, duration := some 20, paused := false }

/-- A 300-second unmuted video at 5s, playing at the user's chosen 2x. -/
def v300 : VideoState :=
  { muted := false, playbackRate := 2, currentTime := 5, duration := some 300, paused := false }

/-! ## Helper lemmas about the sanitizer -/

mutual

theorem hasKey_cleanVal (s : String) (hs : adProps.contains s = true) :
    ∀ v : JVal, hasKey s (cleanVal v) = false
  | JVal.null => rfl
  | JVal.bool _ => rfl
  | JVal.num _ => rfl
  | JVal.str _ => rfl
  | JVal.obj fs => hasKeyF_cleanFields s hs fs
  | JVal.arr es => hasKeyE_cleanElems s hs es

theorem hasKeyF_cleanFields (s : String) (hs : adProps.contains s = true) :
    ∀ fs : JFields, hasKeyF s (cleanFields fs) = false
  | JFields.nil => rfl
  | JFields.cons k v rest => by
    by_cases hmem : k ∈ adProps
    · simpa [cleanFields, hmem] using hasKeyF_cleanFields s hs rest
    · have hkn : (k == s) = false := by
        cases hbe : (k == s) with
        | false => rfl
        | true =>
          cases eq_of_beq hbe
          exact absurd (by simpa using hs) hmem
      simp [cleanFields, hmem, hasKeyF, hkn, hasKey_cleanVal s hs v,
        hasKeyF_cleanFields s hs rest]

theorem hasKeyE_cleanElems (s : String) (hs : adProps.contains s = true) :
    ∀ es : JElems, hasKeyE s (cleanElems es) = false
  | JElems.nil => rfl
  | JElems.cons v rest => by
    simp [cleanElems, hasKeyE, hasKey_cleanVal s hs v, hasKeyE_cleanElems s hs rest]

end

mutual

theorem cleanVal_of_clean :
    ∀ v : JVal, (∀ s, adProps.contains s = true → hasKey s v = false) → cleanVal v = v
  | JVal.null, _ => rfl
  | JVal.bool _, _ => rfl
  | JVal.num _, _ => rfl
  | JVal.str _, _ => rfl
  | JVal.obj fs, h => congrArg JVal.obj (cleanFields_of_clean fs h)
  | JVal.arr es, h => congrArg JVal.arr (cleanElems_of_clean es h)

theorem cleanFields_of_clean :
    ∀ fs : JFields, (∀ s, adProps.contains s = true → hasKeyF s fs = false) →
      cleanFields fs = fs
  | JFields.nil, _ => rfl
  | JFields.cons k v rest, h => by
    have hk : ¬ k ∈ adProps := by
      intro hmem
      have hcontra := h k (by simpa using hmem)
      simp [hasKeyF] at hcontra
    have hparts : ∀ s, adProps.contains s = true →
        hasKey s v = false ∧ hasKeyF s rest = false := by
      intro s hsP
      have hflat := h s hsP
      simp only [hasKeyF] at hflat
      rcases Bool.or_eq_false_iff.mp hflat with ⟨hleft, hrest2⟩
      rcases Bool.or_eq_false_iff.mp hleft with ⟨_, hv2⟩
      exact ⟨hv2, hrest2⟩
    simp [cleanFields, hk,
      cleanVal_of_clean v (fun s hsP => (hparts s hsP).1),
      cleanFields_of_clean rest (fun s hsP => (hparts s hsP).2)]

theorem cleanElems_of_clean :
    ∀ es : JElems, (∀ s, adProps.contains s = true → hasKeyE s es = false) →
      cleanElems es = es
  | JElems.nil, _ => rfl
  | JElems.cons v rest, h => by
    have hparts : ∀ s, adProps.contains s = true →
        hasKey s v = false ∧ hasKeyE s rest = false := by
      intro s hsP
      have hflat := h s hsP
      simp only [hasKeyE] at hflat
      exact Bool.or_eq_false_iff.mp hflat
    simp [cleanElems,
      cleanVal_of_clean v (fun s hsP => (hparts s hsP).1),
      cleanElems_of_clean rest (fun s hsP => (hparts s hsP).2)]

end

theorem removeAdData_eq_cleanVal (v : JVal) : removeAdData v = cleanVal v := by
  cases v <;> rfl

theorem cleanVal_idem (v : JVal) : cleanVal (cleanVal v) = cleanVal v :=
  cleanVal_of_clean (cleanVal v) fun s hs => hasKey_cleanVal s hs v

theorem noAdKeys_spec (v : JVal) (h : noAdKeys v = true) :
    ∀ s, adProps.contains s = true → hasKey s v = false := by
  intro s hs
  have hmem : s ∈ adProps := List.elem_iff.mp hs
  have hall := List.all_eq_true.mp h s hmem
  simpa using hall

/-- The spec-style decomposition of the field pass: first drop the
registry keys, keeping every other field in place. -/
def dropAdKeys : JFields → JFields
  | JFields.nil => JFields.nil
  | JFields.cons k v rest =>
    if adProps.contains k then dropAdKeys rest else JFields.cons k v (dropAdKeys rest)

/-- Then sanitize each kept value, keeping each key in its position. -/
def mapCleanF : JFields → JFields
  | JFields.nil => JFields.nil
  | JFields.cons k v rest => JFields.cons k (cleanVal v) (mapCleanF rest)

theorem cleanFields_decomp : ∀ fs : JFields, cleanFields fs = mapCleanF (dropAdKeys fs)
  | JFields.nil => rfl
  | JFields.cons k v rest => by
    by_cases hmem : k ∈ adProps <;>
      simp [cleanFields, dropAdKeys, mapCleanF, hmem, cleanFields_decomp rest]

theorem keysOfF_cleanFields : ∀ fs : JFields,
    keysOfF (cleanFields fs) = (keysOfF fs).filter fun k => !(adProps.contains k)
  | JFields.nil => rfl
  | JFields.cons k v rest => by
    by_cases hmem : k ∈ adProps <;>
      simp [cleanFields, keysOfF, List.filter_cons, hmem, keysOfF_cleanFields rest]

/-! ## Helper lemmas about the heap rendering -/

theorem heapAddrs_updateH : ∀ (h : Heap) (a : Nat) (fs : List (String × HVal)),
    heapAddrs (updateH h a fs) = heapAddrs h
  | [], _, _ => rfl
  | p :: rest, a, fs => by
    cases hpa : (p.1 == a) <;>
      simp [updateH, hpa, heapAddrs, heapAddrs_updateH rest a fs]

theorem heapAddrs_foldl_cleanChildStep (f : Nat)
    (ih : ∀ (h : Heap) (a : Nat), heapAddrs (cleanObjectHB f h a).1 = heapAddrs h) :
    ∀ (l : List (String × HVal)) (acc : Heap × Bool),
      heapAddrs ((l.foldl (cleanChildStep (cleanObjectHB f)) acc).1) = heapAddrs acc.1
  | [], _ => rfl
  | p :: rest, acc => by
    rw [List.foldl_cons, heapAddrs_foldl_cleanChildStep f ih rest _]
    cases hp : p.2 <;> simp [cleanChildStep, hp, ih]

theorem cleanObjectHB_addrs : ∀ (fuel : Nat) (h : Heap) (a : Nat),
    heapAddrs (cleanObjectHB fuel h a).1 = heapAddrs h
  | 0, _, _ => rfl
  | f + 1, h, a => by
    cases hl : lookupH h a with
    | none => simp [cleanObjectHB, hl]
    | some fields =>
      simp only [cleanObjectHB, hl]
      rw [heapAddrs_foldl_cleanChildStep f (fun h2 a2 => cleanObjectHB_addrs f h2 a2) _ _]
      exact heapAddrs_updateH h a _

/-- On the self-referential heap the traversal consumes every finite
fuel bound: the source's recursion has no bound of its own, so on cyclic
input the call never completes. -/
theorem cyclic_no_completion : ∀ fuel : Nat, (cleanObjectHB fuel cyclicHeap 0).2 = false
  | 0 => rfl
  | fuel + 1 => cyclic_no_completion fuel

/-- `isDefinitelyInAd` literally is the conjunction of the structural
class signal and the disjunction of the element signals. -/
theorem isDefinitelyInAd_eq (d : DomSignals) :
    isDefinitelyInAd d =
      (d.hasMoviePlayer && (d.adShowing || d.adInterrupting) &&
        (d.adOverlay || d.adModule || d.adPreview || d.adText)) := by
  rcases d with ⟨hv, hm, s, i, o, m, p, t, sb⟩
  cases hm <;> cases s <;> cases i <;> rfl

/-! ## Claim C1: depth ceiling of the sanitizer -/

def adsName : String := "ads"

/-- A payload whose only registry key sits at nesting depth `n + 1`. -/
def deepNest : Nat → JVal
  | 0 => JVal.obj (JFields.cons adsName (JVal.num 1) JFields.nil)
  | n + 1 => JVal.obj (JFields.cons ("wrap") (deepNest n) JFields.nil)

/-- Claim C1 states that `cleanObject` stops recursing at a fixed depth
ceiling (recommended 15) and leaves deeper branches unsanitized.  It
fails on the code: `cleanObject` has no depth parameter at all, so a
registry key nested 21 levels deep is still deleted. -/
theorem C1_depth_ceiling_counterexample :
    hasKey adsName (deepNest 20) = true ∧
    hasKey adsName (removeAdData (deepNest 20)) = false := by
  exact ⟨by decide, by decide⟩

/-- Claim C1 amended: the sanitizer has no depth ceiling — at every
nesting depth the registry key is present before and gone after
sanitizing — and on self-referential input the recursion exceeds every
finite bound instead of completing at a ceiling. -/
theorem C1_no_depth_ceiling :
    (∀ n : Nat, hasKey adsName (deepNest n) = true ∧
      hasKey adsName (removeAdData (deepNest n)) = false) ∧
    (∀ fuel : Nat, (cleanObjectHB fuel cyclicHeap 0).2 = false) := by
  constructor
  · intro n
    constructor
    · induction n with
      | zero => decide
      | succ m ih => simp [deepNest, hasKey, hasKeyF, ih]
    · rw [removeAdData_eq_cleanVal]
      exact hasKey_cleanVal adsName (by decide) (deepNest n)
  · exact cyclic_no_completion

/-! ## Claim C2: the detection predicate -/

/-- Claim C2 states that the detector reports an ad only when a
structural class and a corroborating element are both present.  It fails
on the current revision, whose `isNowInAd` is a disjunction: an overlay
element alone, with no structural ad class, yields a positive signal and
the state machine mutes the video on it. -/
theorem C2_disjunction_counterexample :
    (dOverlayOnly.adShowing || dOverlayOnly.adInterrupting) = false ∧
    isNowInAdMain dOverlayOnly = true ∧
    (handleAdDetectionMain mainSt0 v20 dOverlayOnly).2.muted = true := by
  refine ⟨rfl, rfl, ?_⟩
  norm_num [handleAdDetectionMain, mainSt0, v20, dOverlayOnly, dNoAd, isNowInAdMain]

/-- Claim C2 amended: the conjunction holds exactly for the v1.4.0
detector `isDefinitelyInAd` — neither the structural class alone nor a
corroborating element alone makes it positive — while the current
revision's detector is a disjunction in which an overlay element alone
suffices. -/
theorem C2_detection_predicate :
    (∀ d : DomSignals,
      isDefinitelyInAd d =
        (d.hasMoviePlayer && (d.adShowing || d.adInterrupting) &&
          (d.adOverlay || d.adModule || d.adPreview || d.adText))) ∧
    (∀ d : DomSignals, (d.adShowing || d.adInterrupting) = false →
      isDefinitelyInAd d = false) ∧
    (∀ d : DomSignals, (d.adOverlay || d.adModule || d.adPreview || d.adText) = false →
      isDefinitelyInAd d = false) ∧
    (∀ d : DomSignals, d.adOverlay = true → isNowInAdMain d = true) := by
  refine ⟨isDefinitelyInAd_eq, ?_, ?_, ?_⟩
  · intro d h
    rw [isDefinitelyInAd_eq d, h]
    simp
  · intro d h
    rw [isDefinitelyInAd_eq d, h]
    simp
  · intro d h
    simp [isNowInAdMain, h]

/-- Witness for C2: the amended statements instantiated at concrete DOM
snapshots. -/
theorem C2_detection_predicate_witness :
    isDefinitelyInAd dOverlayOnly = false ∧ isNowInAdMain dOverlayOnly = true ∧
    isDefinitelyInAd dNoAd = false :=
  ⟨C2_detection_predicate.2.1 dOverlayOnly rfl,
   C2_detection_predicate.2.2.2 dOverlayOnly rfl,
   C2_detection_predicate.2.2.1 dNoAd rfl⟩

/-! ## Claim C3: the duration bound on forced skipping -/

/-- Claim C3 states that the skip routine forces the play position to
the end only for reported durations under about 30 seconds.  It fails on
the current revision: while staying in the ad state with a 300-second
medium, `handleAdDetection` forces `currentTime` to the full duration. -/
theorem C3_long_duration_counterexample :
    (30 : Rat) ≤ 300 ∧
    (handleAdDetectionMain { mainSt0 with lastAdState := true } v300 dAdActive).2.currentTime
      = 300 := by
  constructor
  · norm_num
  · norm_num [handleAdDetectionMain, mainSt0, v300, dAdActive, dNoAd, isNowInAdMain]

/-- Claim C3 amended: the duration bound holds in the v1.4.0 revision —
`trySkipAd` never moves the play position when the reported duration is
at least 30 seconds — while the current revision's entering branch
forces the position to the full duration whenever any nonzero duration
is reported, regardless of its size. -/
theorem C3_skip_bound :
    (∀ (d : DomSignals) (v : VideoState) (dur : Rat),
      v.duration = some dur → 30 ≤ dur →
      (trySkipAd d v).currentTime = v.currentTime) ∧
    (∀ (st : MainState) (v : VideoState) (d : DomSignals) (dur : Rat),
      d.hasVideo = true → d.hasMoviePlayer = true →
      isNowInAdMain d = true → st.lastAdState = false →
      v.duration = some dur → dur ≠ 0 →
      (handleAdDetectionMain st v d).2.currentTime = dur) := by
  constructor
  · intro d v dur hdur h30
    have hnot : ¬(dur ≠ 0 ∧ dur < 30) := fun hc => absurd hc.2 (not_lt.mpr h30)
    by_cases hb : d.skipButtonVisible = true
    · simp [trySkipAd, hb]
    · have hb2 : d.skipButtonVisible = false := by simpa using hb
      by_cases hr : v.playbackRate < 16
      · simp [trySkipAd, hb2, hr, hdur, hnot]
      · simp [trySkipAd, hb2, hr, hdur, hnot]
  · intro st v d dur hv hm had hlast hdur hd0
    simp [handleAdDetectionMain, hv, hm, had, hlast, hdur, hd0]

/-- Witness for C3: the amended statements instantiated at a snapshot
with no skip button and the 300-second video. -/
theorem C3_skip_bound_witness :
    (trySkipAd dNoAd v300).currentTime = v300.currentTime ∧
    (handleAdDetectionMain mainSt0 v300 dAdActive).2.currentTime = 300 :=
  ⟨C3_skip_bound.1 dNoAd v300 300 rfl (by norm_num),
   C3_skip_bound.2 mainSt0 v300 dAdActive 300 rfl rfl rfl rfl rfl (by norm_num)⟩

/-! ## Claim C4: selective deletion -/

/-- The spec's end-to-end example payload: a `playerAds` subtree next to
`videoDetails.title = T`. -/
def payloadExample : JVal :=
  JVal.obj (JFields.cons ("playerAds")
    (JVal.obj (JFields.cons ("adData") (JVal.num 1) JFields.nil))
    (JFields.cons ("videoDetails")
      (JVal.obj (JFields.cons ("title") (JVal.str ("T")) JFields.nil))
      JFields.nil))

/-- The same payload with the `playerAds` subtree removed. -/
def payloadExampleClean : JVal :=
  JVal.obj (JFields.cons ("videoDetails")
    (JVal.obj (JFields.cons ("title") (JVal.str ("T")) JFields.nil))
    JFields.nil)

/-- Claim C4: after sanitizing, no node of any payload retains any
registry key; the field pass keeps every non-registry key in its
position with its value sanitized in place (it equals dropping the
registry keys and then cleaning the kept values), so a subtree carrying
no registry key is untouched; and the spec's end-to-end example holds. -/
theorem C4_selective_deletion :
    (∀ s, adProps.contains s = true → ∀ P : JVal, hasKey s (removeAdData P) = false) ∧
    (∀ fs : JFields, cleanFields fs = mapCleanF (dropAdKeys fs)) ∧
    (∀ fs : JFields,
      keysOfF (cleanFields fs) = (keysOfF fs).filter fun k => !(adProps.contains k)) ∧
    (∀ v : JVal, noAdKeys v = true → cleanVal v = v) ∧
    removeAdData payloadExample = payloadExampleClean := by
  refine ⟨?_, cleanFields_decomp, keysOfF_cleanFields, ?_, rfl⟩
  · intro s hs P
    rw [removeAdData_eq_cleanVal]
    exact hasKey_cleanVal s hs P
  · intro v h
    exact cleanVal_of_clean v (noAdKeys_spec v h)

/-- Witness for C4: the registry name `ads` is gone from the sanitized
example payload, and the clean payload is untouched by the field pass. -/
theorem C4_selective_deletion_witness :
    hasKey adsName (removeAdData payloadExample) = false ∧
    cleanVal payloadExampleClean = payloadExampleClean :=
  ⟨C4_selective_deletion.1 adsName (by decide) payloadExample,
   C4_selective_deletion.2.2.2.1 payloadExampleClean (by decide)⟩

/-! ## Claim C5: idempotence -/

/-- Claim C5: sanitizing twice equals sanitizing once, and sanitizing an
already-clean payload changes nothing. -/
theorem C5_idempotent :
    (∀ P : JVal, removeAdData (removeAdData P) = removeAdData P) ∧
    (∀ P : JVal, noAdKeys P = true → removeAdData P = P) := by
  constructor
  · intro P
    simp only [removeAdData_eq_cleanVal]
    exact cleanVal_idem P
  · intro P h
    rw [removeAdData_eq_cleanVal]
    exact cleanVal_of_clean P (noAdKeys_spec P h)

/-- Witness for C5: idempotence and the no-op property at the example
payloads. -/
theorem C5_idempotent_witness :
    removeAdData (removeAdData payloadExample) = removeAdData payloadExample ∧
    removeAdData payloadExampleClean = payloadExampleClean :=
  ⟨C5_idempotent.1 payloadExample, C5_idempotent.2 payloadExampleClean (by decide)⟩

/-! ## Claim C6: mute and rate round-trip -/

/-- A v1.4.0 state one confirmation away from committing the entering
transition. -/
def stEnter : SkipperState :=
  { lastAdState := false, userWasMuted := false, userPlaybackRate := 1
    consecutiveAdDetections := 1 }

/-- A v1.4.0 in-ad state carrying saved preferences. -/
def stExit : SkipperState :=
  { lastAdState := true, userWasMuted := true, userPlaybackRate := 2
    consecutiveAdDetections := 5 }

/-- A current-revision in-ad state carrying a saved mute flag. -/
def mainStExit : MainState := { lastAdState := true, userWasMuted := true }

/-- Claim C6 states that the exit transition restores both the captured
muted flag and the captured playback rate.  It fails on the current
revision: across an enter/exit pair starting from the user's 2x rate,
the muted flag comes back but the rate is reset to 1, not 2. -/
theorem C6_rate_reset_counterexample :
    v300.playbackRate = 2 ∧
    (handleAdDetectionMain (handleAdDetectionMain mainSt0 v300 dAdActive).1
        (handleAdDetectionMain mainSt0 v300 dAdActive).2 dNoAd).2.muted = v300.muted ∧
    (handleAdDetectionMain (handleAdDetectionMain mainSt0 v300 dAdActive).1
        (handleAdDetectionMain mainSt0 v300 dAdActive).2 dNoAd).2.playbackRate = 1 ∧
    (1 : Rat) ≠ v300.playbackRate := by
  refine ⟨rfl, ?_, ?_, by norm_num [v300]⟩ <;>
    norm_num [handleAdDetectionMain, mainSt0, v300, dAdActive, dNoAd, isNowInAdMain]

/-- Claim C6 amended: the v1.4.0 revision captures both the muted flag
and the playback rate on the committed entering transition and restores
both exactly on exit; the current revision captures and restores only
the muted flag and resets the playback rate to the constant 1. -/
theorem C6_mute_rate_roundtrip :
    (∀ (st : SkipperState) (v : VideoState) (d : DomSignals),
      d.hasVideo = true → d.hasMoviePlayer = true →
      isDefinitelyInAd d = true → st.lastAdState = false →
      2 ≤ st.consecutiveAdDetections + 1 →
      (handleAdDetectionV140 st v d).1.userWasMuted = v.muted ∧
      (handleAdDetectionV140 st v d).1.userPlaybackRate = v.playbackRate) ∧
    (∀ (st : SkipperState) (v : VideoState) (d : DomSignals),
      d.hasVideo = true → d.hasMoviePlayer = true →
      isDefinitelyInAd d = false → st.lastAdState = true →
      (handleAdDetectionV140 st v d).2.muted = st.userWasMuted ∧
      (handleAdDetectionV140 st v d).2.playbackRate = st.userPlaybackRate) ∧
    (∀ (st : MainState) (v : VideoState) (d : DomSignals),
      d.hasVideo = true → d.hasMoviePlayer = true →
      isNowInAdMain d = false → st.lastAdState = true →
      (handleAdDetectionMain st v d).2.muted = st.userWasMuted ∧
      (handleAdDetectionMain st v d).2.playbackRate = 1) := by
  refine ⟨?_, ?_, ?_⟩
  · intro st v d hv hm had hlast hcnt
    have hlt : ¬(st.consecutiveAdDetections + 1 < 2) := by omega
    simp [handleAdDetectionV140, hv, hm, had, hlast, hlt]
  · intro st v d hv hm had hlast
    simp [handleAdDetectionV140, hv, hm, had, hlast]
  · intro st v d hv hm had hlast
    simp [handleAdDetectionMain, hv, hm, had, hlast]

/-- Witness for C6: the three amended statements instantiated at
concrete states, videos and snapshots. -/
theorem C6_mute_rate_roundtrip_witness :
    ((handleAdDetectionV140 stEnter v300 dAdActive).1.userWasMuted = v300.muted ∧
     (handleAdDetectionV140 stEnter v300 dAdActive).1.userPlaybackRate = v300.playbackRate) ∧
    ((handleAdDetectionV140 stExit v300 dNoAd).2.muted = stExit.userWasMuted ∧
     (handleAdDetectionV140 stExit v300 dNoAd).2.playbackRate = stExit.userPlaybackRate) ∧
    ((handleAdDetectionMain mainStExit v300 dNoAd).2.muted = mainStExit.userWasMuted ∧
     (handleAdDetectionMain mainStExit v300 dNoAd).2.playbackRate = 1) :=
  ⟨C6_mute_rate_roundtrip.1 stEnter v300 dAdActive rfl rfl rfl rfl (by decide),
   C6_mute_rate_roundtrip.2.1 stExit v300 dNoAd rfl rfl rfl rfl,
   C6_mute_rate_roundtrip.2.2 mainStExit v300 dNoAd rfl rfl rfl rfl⟩

/-! ## Claim C7: two-sample confirmation -/

/-- Claim C7: with the v1.4.0 two-consecutive-confirmation variant, the
sampled signal sequence false, true, true commits the entering
transition only on the third sample — after the second sample the video
is untouched and the machine still reports content, while the third
sample saves the user's preferences, mutes and attempts the skip. -/
theorem C7_two_sample_confirmation :
    ((runDetectionV140 [dNoAd, dAdActive] st0 v20).2 = v20 ∧
     (runDetectionV140 [dNoAd, dAdActive] st0 v20).1.lastAdState = false) ∧
    ((runDetectionV140 [dNoAd, dAdActive, dAdActive] st0 v20).1.lastAdState = true ∧
     (runDetectionV140 [dNoAd, dAdActive, dAdActive] st0 v20).2.muted = true ∧
     (runDetectionV140 [dNoAd, dAdActive, dAdActive] st0 v20).2.playbackRate = 16 ∧
     (runDetectionV140 [dNoAd, dAdActive, dAdActive] st0 v20).1.userWasMuted = v20.muted ∧
     (runDetectionV140 [dNoAd, dAdActive, dAdActive] st0 v20).1.userPlaybackRate
       = v20.playbackRate) := by
  norm_num [runDetectionV140, handleAdDetectionV140, isDefinitelyInAd, trySkipAd,
    st0, v20, dNoAd, dAdActive]

/-! ## Claim C8: decode-failure pass-through -/

/-- Claim C8: whenever the intercepted body fails to decode, the fetch
hook resolves to the original response value itself — same status,
status text, headers and body — and, the hook being a total function
(the source wraps the parse in try/catch and a promise catch), no error
reaches the caller. -/
theorem C8_decode_failure_passthrough
    (parse : String → Option JVal) (url : String) (resp : Response)
    (hfail : parse resp.body = none) :
    fetchHook parse url resp = resp := by
  unfold fetchHook
  split
  · rfl
  · split
    · rfl
    · split
      · rfl
      · split
        · rw [hfail]
        · rfl

/-- A player-API JSON response whose body is not valid structured
data. -/
def respPlain : Response :=
  { status := 200, statusText := "OK"
    headers := [(contentTypeName, "application/json; charset=utf-8")]
    body := "not structured data" }

/-- A player-API request URL. -/
def urlPlayer : String := "https://www.youtube.com/youtubei/v1/player?key=abc"

/-- Witness for C8: with a decoder that fails on every body, the
intercepted player response passes through unchanged. -/
theorem C8_decode_failure_passthrough_witness :
    fetchHook (fun _ => none) urlPlayer respPlain = respPlain :=
  C8_decode_failure_passthrough (fun _ => none) urlPlayer respPlain rfl

/-! ## Claim C9: exclusion of continuation requests -/

/-- Claim C9: a URL carrying the `/next` continuation marker is never
sanitized — the fetch hook returns every response unchanged, the XHR
hook's interception condition is false so its rewriting listener is
never attached, and the XHR response body passes through as received —
even when the URL also carries the `/youtubei/v1/player` marker. -/
theorem C9_next_marker_excluded (url : String)
    (hnext : jsIncludes url nextMarker = true) :
    (∀ (parse : String → Option JVal) (resp : Response), fetchHook parse url resp = resp) ∧
    xhrIntercepts url = false ∧
    (∀ (parse : String → Option JVal) (text : String),
      xhrResponseBody parse url text = text) := by
  have hx : xhrIntercepts url = false := by simp [xhrIntercepts, hnext]
  refine ⟨?_, hx, ?_⟩
  · intro parse resp
    unfold fetchHook
    split
    · rfl
    · split
      · rfl
      · split
        · rfl
        · simp [hnext]
  · intro parse text
    simp [xhrResponseBody, hx]

/-- A URL carrying both the player marker and the continuation marker. -/
def urlPlayerNext : String := "https://www.youtube.com/youtubei/v1/player/next"

/-- Witness for C9: the continuation URL matches the player pattern yet
is passed through by the fetch hook and not intercepted by the XHR
hook. -/
theorem C9_next_marker_excluded_witness :
    jsIncludes urlPlayerNext playerMarker = true ∧
    fetchHook (fun _ => some JVal.null) urlPlayerNext respPlain = respPlain ∧
    xhrIntercepts urlPlayerNext = false := by
  refine ⟨by decide, ?_, ?_⟩
  · exact (C9_next_marker_excluded urlPlayerNext (by decide)).1
      (fun _ => some JVal.null) respPlain
  · exact (C9_next_marker_excluded urlPlayerNext (by decide)).2.1

/-! ## Claim C10: identity of the returned value -/

/-- Claim C10: `removeAdData` returns exactly the value it was given —
null, undefined and scalar input comes back unchanged with the heap
untouched; reference input is cleaned in place and the very same
reference returned; the heap keeps exactly its addresses, so no new
top-level structure is allocated; and the `ytInitialPlayerResponse`
setter therefore stores the caller's original value. -/
theorem C10_in_place_identity :
    (∀ (fuel : Nat) (h : Heap) (v : HVal), isRefH v = false →
      removeAdDataH fuel h v = (h, v)) ∧
    (∀ (fuel : Nat) (h : Heap) (v : HVal), (removeAdDataH fuel h v).2 = v) ∧
    (∀ (fuel : Nat) (h : Heap) (a : Nat),
      heapAddrs (cleanObjectHB fuel h a).1 = heapAddrs h) ∧
    (∀ (fuel : Nat) (h : Heap) (v : HVal), ytSetterStores fuel h v = v) := by
  refine ⟨?_, ?_, cleanObjectHB_addrs, ?_⟩
  · intro fuel h v hv
    cases v <;> first | rfl | exact Bool.noConfusion hv
  · intro fuel h v
    cases v <;> rfl
  · intro fuel h v
    cases v <;> rfl

/-- Witness for C10: a scalar passes through the sanitizer untouched,
and a reference into the self-referential heap comes back as the same
reference. -/
theorem C10_in_place_identity_witness :
    removeAdDataH 5 cyclicHeap (HVal.num 3) = (cyclicHeap, HVal.num 3) ∧
    (removeAdDataH 5 cyclicHeap (HVal.ref 0)).2 = HVal.ref 0 :=
  ⟨C10_in_place_identity.1 5 cyclicHeap (HVal.num 3) rfl,
   C10_in_place_identity.2.1 5 cyclicHeap (HVal.ref 0)⟩

end SafeGaze
